import Mathlib

/-!
Shallow embedding of the Trust/Proxy decision engine of the
Project-Aegis-Proto backend, together with theorems settling the
specification's claims against the code.

Conventions of the embedding:

* Instants (every `datetime.utcnow()` evaluation) are natural numbers.
  Each distinct `utcnow()` call site in a Python function becomes an
  explicit parameter of the Lean function, in source order, so that the
  fact that two calls may (and in practice do) return different instants
  is visible in the model.
* Time-of-day values (used only by the transaction governor's odd-hours
  rule) are seconds past midnight, `0 ≤ t < 86400`.
* Monetary amounts (Python floats) are rationals.
* The SQLAlchemy session is an explicit `DB` record of lists; `query(...)
  .filter(id == x).first()` is `List.find?`, and an ORM field mutation
  followed by `commit()` is a `List.map` that rewrites the matching row.
* HMAC-SHA256 and Fernet are external primitives.  They are modelled as
  collision-free abstractions: a MAC value is the pair of the key and the
  canonically-serialized signed data (`json.dumps(..., sort_keys=True)`
  is injective on the field tuple, and an HMAC collision is ignored), and
  a Fernet ciphertext is the pair of the key and the plaintext.  The code
  under analysis only ever creates and compares these values, so this
  abstraction is faithful.
* TOTP (`pyotp.TOTP(secret, interval=300)`) is modelled by an injective
  code-generation function of the secret and the 300-second window index.
-/

/-- Single-quote character, used to build Python f-string texts that
contain a quoted value. -/
def squote : String := String.singleton (Char.ofNat 39)

/-! ## Crypto primitives (`VaultEncryption`, `TwoFactorAuth`) -/

/-- The field tuple signed by `VaultEncryption.sign_data` callers: the
canonical view `\x7bpoa_id, action_type, timestamp, decision,
request_details\x7d` serialized with `json.dumps(..., sort_keys=True)`.
`request_details` is kept as its canonical serialization (an opaque
string). -/
structure SigData where
  poa_id : Nat
  action_type : String
  timestamp : Nat
  decision : String
  request_details : String
deriving DecidableEq, Repr

/-- An HMAC-SHA256 value, modelled as the pair of the key and the signed
data (HMAC is treated as collision-free; the canonical JSON
serialization is injective on the field tuple). -/
structure HmacSig where
  key : String
  data : SigData
deriving DecidableEq, Repr

/-- `VaultEncryption.sign_data`: HMAC-SHA256 of the canonical
serialization of `data` under `secret_key`. -/
def sign_data (secret_key : String) (data : SigData) : HmacSig :=
  ⟨secret_key, data⟩

/-- `VaultEncryption.verify_signature`: recompute and compare with
`hmac.compare_digest`. -/
def verify_signature (secret_key : String) (data : SigData) (signature : HmacSig) : Bool :=
  sign_data secret_key data == signature

/-- A Fernet ciphertext, modelled as the pair of the key and the
plaintext (authenticated symmetric encryption treated as a perfect
cipher; the process-wide key comes from `VAULT_ENCRYPTION_KEY`). -/
structure Ciphertext where
  key : String
  plaintext : String
deriving DecidableEq, Repr

/-- `VaultEncryption.encrypt_token`. -/
def encrypt_token (key : String) (token : String) : Ciphertext :=
  ⟨key, token⟩

/-- `VaultEncryption.decrypt_token` (round-trip property of Fernet under
the single process key). -/
def decrypt_token (_key : String) (c : Ciphertext) : String :=
  c.plaintext

/-- Python `str.lower()`: character-wise lowercase.  (Core's
`String.toLower` is used by the source only on ASCII data; it is
re-expressed over the character list so that concrete instances reduce
in the kernel.) -/
def py_lower (s : String) : String :=
  String.mk (s.toList.map Char.toLower)

/-- Python `str.upper()`: character-wise uppercase. -/
def py_upper (s : String) : String :=
  String.mk (s.toList.map Char.toUpper)

/-- The TOTP code of a given 300-second window for a secret
(`pyotp.TOTP(secret, interval=300)` evaluated at that window), modelled
as an injective function of secret and window index. -/
def totp_at (secret : String) (window : Nat) : String :=
  secret ++ "#" ++ toString window

/-- `TwoFactorAuth.generate_code`: the TOTP code of the current window
(`totp.now()` at instant `now`). -/
def generate_code (secret : String) (now : Nat) : String :=
  totp_at secret (now / 300)

/-- `TwoFactorAuth.verify_code`: `totp.verify(code, valid_window=1)`
accepts the code of the current window or of the adjacent windows. -/
def verify_code (secret : String) (code : String) (now : Nat) : Bool :=
  let w := now / 300
  code == totp_at secret w ||
  code == totp_at secret (w + 1) ||
  (decide (0 < w) && code == totp_at secret (w - 1))

/-! ## Data model (`proxy_models.py`) -/

/-- `SmartPOA` ORM row. -/
structure SmartPOA where
  id : Nat
  senior_id : String
  agent_id : String
  scope : String
  specific_services : Option (List String)
  spend_limit : Rat
  expiry_date : Nat
  created_at : Nat
  revoked_at : Option Nat
  is_active : Bool
  created_by : Option String
  revocation_reason : Option String
deriving DecidableEq, Repr

/-- `SmartPOA.is_valid` at instant `now` (`datetime.utcnow()`). -/
def SmartPOA.is_valid (p : SmartPOA) (now : Nat) : Bool :=
  p.is_active && p.revoked_at.isNone && decide (p.expiry_date > now)

/-- `SmartPOA.is_within_scope`: Python `if not self.specific_services`
is true for `None` and for the empty list, so both allow every
service. -/
def SmartPOA.is_within_scope (p : SmartPOA) (service_name : String) : Bool :=
  match p.specific_services with
  | none => true
  | some services => services.isEmpty || services.contains service_name

/-- `SmartPOA.is_within_limit`. -/
def SmartPOA.is_within_limit (p : SmartPOA) (amount : Rat) : Bool :=
  amount ≤ p.spend_limit

/-- `EncryptedToken` ORM row. -/
structure EncryptedToken where
  id : Nat
  poa_id : Nat
  service_name : String
  token_type : String
  encrypted_token : Ciphertext
  expires_at : Option Nat
  created_at : Nat
  last_used : Option Nat
deriving DecidableEq, Repr

/-- `AuditLog` ORM row.  `request_details` is kept as its canonical
serialization. -/
structure AuditLog where
  id : Nat
  poa_id : Nat
  action_type : String
  timestamp : Nat
  request_details : String
  service_name : Option String
  amount : Option Rat
  decision : String
  reasoning : String
  signature : HmacSig
  signature_verified : Bool
  advocate_notified : Bool
deriving DecidableEq, Repr

/-- `BreakGlassEvent` ORM row. -/
structure BreakGlassEvent where
  id : Nat
  audit_log_id : Nat
  trigger_reason : String
  trigger_details : String
  status : String
  advocate_id : String
  verification_method : Option String
  two_fa_code : Option String
  two_fa_sent_at : Option Nat
  two_fa_verified_at : Option Nat
  liveness_required : Bool
  liveness_verified : Bool
  liveness_verified_at : Option Nat
  approved_at : Option Nat
  approved_by : Option String
  denied_at : Option Nat
  denied_by : Option String
  denial_reason : Option String
  created_at : Nat
  expires_at : Nat
deriving DecidableEq, Repr

/-- `BreakGlassEvent.is_expired` at instant `now`. -/
def BreakGlassEvent.is_expired (e : BreakGlassEvent) (now : Nat) : Bool :=
  decide (now > e.expires_at)

/-- `BreakGlassEvent.can_approve` at instant `now` (defined in the model
layer; note that the monitor's transition functions never call it). -/
def BreakGlassEvent.can_approve (e : BreakGlassEvent) (now : Nat) : Bool :=
  e.status == "PENDING" && !(e.is_expired now) &&
  (!e.liveness_required || e.liveness_verified)

/-! ## The database session -/

/-- The persistent store reachable from the SQLAlchemy session: one list
per table, plus the autoincrement counters for the primary keys. -/
structure DB where
  poas : List SmartPOA
  tokens : List EncryptedToken
  audit_logs : List AuditLog
  events : List BreakGlassEvent
  next_poa_id : Nat
  next_token_id : Nat
  next_audit_id : Nat
  next_event_id : Nat
deriving DecidableEq, Repr

/-- The empty store. -/
def DB.empty : DB := ⟨[], [], [], [], 1, 1, 1, 1⟩

/-- `db.query(SmartPOA).filter(SmartPOA.id == poa_id).first()`
(`SmartPOAManager.get_poa`). -/
def get_poa (db : DB) (poa_id : Nat) : Option SmartPOA :=
  db.poas.find? (fun p => p.id == poa_id)

/-- `db.query(EncryptedToken).filter(EncryptedToken.id == token_id).first()`. -/
def find_token (db : DB) (token_id : Nat) : Option EncryptedToken :=
  db.tokens.find? (fun t => t.id == token_id)

/-- `db.query(AuditLog).filter(AuditLog.id == log_id).first()`. -/
def find_audit_log (db : DB) (log_id : Nat) : Option AuditLog :=
  db.audit_logs.find? (fun l => l.id == log_id)

/-- `db.query(BreakGlassEvent).filter(BreakGlassEvent.id == event_id).first()`. -/
def find_event (db : DB) (event_id : Nat) : Option BreakGlassEvent :=
  db.events.find? (fun e => e.id == event_id)

/-- Mutating the POA row with the given id and committing. -/
def DB.update_poa (db : DB) (poa_id : Nat) (f : SmartPOA → SmartPOA) : DB :=
  { db with poas := db.poas.map (fun p => if p.id == poa_id then f p else p) }

/-- Mutating the token row with the given id and committing. -/
def DB.update_token (db : DB) (token_id : Nat) (f : EncryptedToken → EncryptedToken) : DB :=
  { db with tokens := db.tokens.map (fun t => if t.id == token_id then f t else t) }

/-- Mutating the break-glass event row with the given id and committing. -/
def DB.update_event (db : DB) (event_id : Nat) (f : BreakGlassEvent → BreakGlassEvent) : DB :=
  { db with events := db.events.map (fun e => if e.id == event_id then f e else e) }

/-! ## Audit ledger (`FiduciaryLogger.create_log`,
`SmartPOAManager._create_audit_log`, `FiduciaryLogger.verify_log_signature`)

`FiduciaryLogger.create_log` and `SmartPOAManager._create_audit_log`
have identical bodies (the logger additionally threads an
`advocate_notified` flag, which the vault leaves at its column default
`False`), so a single definition embeds both.

The one subtlety is faithfully kept: the function evaluates
`datetime.utcnow()` once to build the *signed* timestamp
(`signature_data["timestamp"]`), but the `AuditLog` constructor is not
given a timestamp, so the persisted row's `timestamp` column is filled
by its `default=datetime.utcnow` — a *second*, later `utcnow()`
evaluation at INSERT time.  The two instants are the parameters
`sign_time` and `store_time`, in evaluation order. -/

/-- `FiduciaryLogger.create_log` / `SmartPOAManager._create_audit_log`:
sign the canonical view at `sign_time`, persist a row whose `timestamp`
column defaults to `store_time`, return the refreshed row. -/
def create_log (secret_key : String) (db : DB) (poa_id : Nat)
    (action_type decision reasoning : String) (request_details : String)
    (service_name : Option String) (amount : Option Rat)
    (advocate_notified : Bool) (sign_time store_time : Nat) : DB × AuditLog :=
  let signature := sign_data secret_key
    ⟨poa_id, action_type, sign_time, decision, request_details⟩
  let log : AuditLog :=
    { id := db.next_audit_id
      poa_id := poa_id
      action_type := action_type
      timestamp := store_time
      request_details := request_details
      service_name := service_name
      amount := amount
      decision := decision
      reasoning := reasoning
      signature := signature
      signature_verified := true
      advocate_notified := advocate_notified }
  ({ db with audit_logs := db.audit_logs ++ [log],
             next_audit_id := db.next_audit_id + 1 }, log)

/-- `FiduciaryLogger.verify_log_signature`: look the row up, rebuild the
canonical view from the *stored* fields (including the stored
`timestamp` column) and verify the stored signature against it. -/
def verify_log_signature (secret_key : String) (db : DB) (log_id : Nat) : Bool :=
  match find_audit_log db log_id with
  | none => false
  | some log =>
      verify_signature secret_key
        ⟨log.poa_id, log.action_type, log.timestamp, log.decision, log.request_details⟩
        log.signature

/-! ## POA registry and token vault (`SmartPOAManager`)

Each manager method that calls `_create_audit_log` threads the two
`utcnow()` instants of the ledger append (`sign_time`, `store_time`) in
addition to its own `utcnow()` evaluations.  `request_details` dicts are
carried as canonical serializations built with `detailsOf`. -/

/-- Canonical serialization of a `request_details` dict: the
`key=value` pairs joined in source order (stands for the canonical JSON
of the Python dict; the claims never look inside it). -/
def detailsOf (pairs : List (String × String)) : String :=
  String.intercalate ";" (pairs.map (fun kv => kv.1 ++ "=" ++ kv.2))

/-- `SmartPOAManager.create_poa`: insert the row (expiry
`utcnow() + expiry_days`, `is_active=True`) and append a `POA_CREATED`
/ `ALLOWED` audit entry.  `expiry_days` is an integer number of days,
possibly negative (an already-expired POA for testing), converted here
to an instant offset with days as abstract units; `create_time`,
`sign_time` and `store_time` are the successive `utcnow()`
evaluations. -/
def create_poa (secret_key : String) (db : DB) (senior_id agent_id scope : String)
    (spend_limit : Rat) (expiry_days : Int)
    (specific_services : Option (List String)) (created_by : Option String)
    (create_time sign_time store_time : Nat) : DB × SmartPOA :=
  let poa : SmartPOA :=
    { id := db.next_poa_id
      senior_id := senior_id
      agent_id := agent_id
      scope := scope
      specific_services := specific_services
      spend_limit := spend_limit
      expiry_date := (((create_time : Int) + expiry_days).toNat)
      created_at := create_time
      revoked_at := none
      is_active := true
      created_by := created_by
      revocation_reason := none }
  let db1 : DB := { db with poas := db.poas ++ [poa], next_poa_id := db.next_poa_id + 1 }
  let details := detailsOf
    [("senior_id", senior_id), ("agent_id", agent_id), ("scope", scope),
     ("spend_limit", toString spend_limit), ("expiry_days", toString expiry_days)]
  let reasoning := "Smart POA created for " ++ scope ++ " with $" ++
    toString spend_limit ++ " limit"
  let (db2, _) := create_log secret_key db1 poa.id "POA_CREATED" "ALLOWED"
    reasoning details none none false sign_time store_time
  (db2, poa)

/-- `SmartPOAManager.revoke_poa`: `False` when the POA is absent;
otherwise set `is_active=False`, `revoked_at=utcnow()`,
`revocation_reason`, commit, append a `POA_REVOKED` / `ALLOWED` audit
entry and return `True`.  There is no already-revoked check: the
update and the audit append happen unconditionally whenever the row
exists. -/
def revoke_poa (secret_key : String) (db : DB) (poa_id : Nat)
    (reason revoked_by : String) (revoke_time sign_time store_time : Nat) : DB × Bool :=
  match get_poa db poa_id with
  | none => (db, false)
  | some poa =>
      let db1 := db.update_poa poa_id (fun p =>
        { p with is_active := false
                 revoked_at := some revoke_time
                 revocation_reason := some reason })
      let details := detailsOf [("revoked_by", revoked_by), ("reason", reason)]
      let (db2, _) := create_log secret_key db1 poa.id "POA_REVOKED" "ALLOWED"
        ("POA revoked: " ++ reason) details none none false sign_time store_time
      (db2, true)

/-- `SmartPOAManager.store_oauth_token`: encrypt the plaintext through
the vault cipher and insert the row.  Python's
`if expires_in_seconds:` is falsy for both `None` and `0`, so a zero
TTL stores a token with no expiry. -/
def store_oauth_token (enc_key : String) (db : DB) (poa_id : Nat)
    (service_name token : String) (token_type : String)
    (expires_in_seconds : Option Nat) (store_time : Nat) : DB × EncryptedToken :=
  let expires_at : Option Nat :=
    match expires_in_seconds with
    | some s => if s == 0 then none else some (store_time + s)
    | none => none
  let record : EncryptedToken :=
    { id := db.next_token_id
      poa_id := poa_id
      service_name := service_name
      token_type := token_type
      encrypted_token := encrypt_token enc_key token
      expires_at := expires_at
      created_at := store_time
      last_used := none }
  ({ db with tokens := db.tokens ++ [record],
             next_token_id := db.next_token_id + 1 }, record)

/-- `SmartPOAManager.get_decrypted_token`: `None` when the row is
absent or the token itself is expired; otherwise update `last_used`,
commit, and return the decrypted plaintext.  The owning POA is never
consulted. -/
def get_decrypted_token (enc_key : String) (db : DB) (token_id : Nat)
    (now : Nat) : DB × Option String :=
  match find_token db token_id with
  | none => (db, none)
  | some record =>
      let tokenExpired : Bool :=
        match record.expires_at with
        | some e => decide (e < now)
        | none => false
      if tokenExpired then
        (db, none)
      else
        (db.update_token token_id (fun t => { t with last_used := some now }),
         some (decrypt_token enc_key record.encrypted_token))

/-! ## Gatekeeper (`TokenGatekeeper.validate_request`) -/

/-- The dict returned by `TokenGatekeeper.validate_request`; keys that
a branch leaves out of the Python dict are `none`. -/
structure ValidateResult where
  authorized : Bool
  decision : String
  reasoning : String
  poa_found : Bool
  violation_type : Option String
  audit_log_id : Option Nat
deriving DecidableEq, Repr

/-- `TokenGatekeeper.validate_request`: load the POA; blocked without a
ledger write when absent or invalid; `SCOPE_VIOLATION` append and
blocked when out of scope; `SPEND_LIMIT_EXCEEDED` append and
break-glass when an amount exceeds the limit; otherwise a
`REQUEST_<ACTION>` append and authorized.  `now` is the `utcnow()` of
the validity check, `sign_time`/`store_time` those of the single audit
append a branch may perform. -/
def validate_request (secret_key : String) (db : DB) (poa_id : Nat)
    (service_name : String) (amount : Option Rat) (action : String)
    (now sign_time store_time : Nat) : DB × ValidateResult :=
  match get_poa db poa_id with
  | none =>
      (db, ⟨false, "BLOCKED", "POA not found", false, none, none⟩)
  | some poa =>
      if !(poa.is_valid now) then
        (db, ⟨false, "BLOCKED", "POA is expired or revoked", true, none, none⟩)
      else if !(poa.is_within_scope service_name) then
        let details := detailsOf
          [("service_name", service_name), ("action", action),
           ("allowed_services", toString poa.specific_services)]
        let (db2, _) := create_log secret_key db poa.id "SCOPE_VIOLATION" "BLOCKED"
          ("Service " ++ squote ++ service_name ++ squote ++ " not in POA scope " ++
           squote ++ poa.scope ++ squote)
          details (some service_name) none false sign_time store_time
        (db2, ⟨false, "BLOCKED",
          "Service " ++ squote ++ service_name ++ squote ++
          " not authorized. POA scope: " ++ poa.scope,
          true, some "SCOPE", none⟩)
      else
        match amount with
        | some amt =>
            if !(poa.is_within_limit amt) then
              let details := detailsOf
                [("service_name", service_name), ("amount", toString amt),
                 ("spend_limit", toString poa.spend_limit), ("action", action)]
              let (db2, log) := create_log secret_key db poa.id "SPEND_LIMIT_EXCEEDED"
                "BREAK_GLASS"
                ("Amount $" ++ toString amt ++ " exceeds limit $" ++
                 toString poa.spend_limit)
                details (some service_name) (some amt) false sign_time store_time
              (db2, ⟨false, "BREAK_GLASS",
                "Amount $" ++ toString amt ++ " exceeds POA limit $" ++
                toString poa.spend_limit ++ ". Break-glass protocol triggered.",
                true, some "SPEND_LIMIT", some log.id⟩)
            else
              let details := detailsOf
                [("service_name", service_name), ("amount", toString amt),
                 ("action", action)]
              let (db2, _) := create_log secret_key db poa.id
                ("REQUEST_" ++ py_upper action) "ALLOWED"
                ("Request authorized for " ++ service_name)
                details (some service_name) (some amt) false sign_time store_time
              (db2, ⟨true, "ALLOWED", "Request within POA scope and limits",
                true, none, none⟩)
        | none =>
            let details := detailsOf
              [("service_name", service_name), ("amount", "None"),
               ("action", action)]
            let (db2, _) := create_log secret_key db poa.id
              ("REQUEST_" ++ py_upper action) "ALLOWED"
              ("Request authorized for " ++ service_name)
              details (some service_name) none false sign_time store_time
            (db2, ⟨true, "ALLOWED", "Request within POA scope and limits",
              true, none, none⟩)

/-! ## Break-glass monitor (`BreakGlassMonitor`)

The monitor holds a `TwoFactorAuth` whose secret is the single
process-wide `TOTP_SECRET`; it is the `secret` parameter below. -/

/-- `BreakGlassMonitor.trigger_break_glass`: generate a fresh TOTP code
for the current window, insert a `PENDING` event whose `expires_at`
column default is `utcnow() + 1h` (3600 abstract seconds), and return
the refreshed row (notification side effects are delivery-only and not
modelled). -/
def trigger_break_glass (secret : String) (db : DB) (audit_log_id : Nat)
    (trigger_reason trigger_details advocate_id : String)
    (require_liveness : Bool) (now : Nat) : DB × BreakGlassEvent :=
  let two_fa_code := generate_code secret now
  let event : BreakGlassEvent :=
    { id := db.next_event_id
      audit_log_id := audit_log_id
      trigger_reason := trigger_reason
      trigger_details := trigger_details
      status := "PENDING"
      advocate_id := advocate_id
      verification_method := some (if require_liveness then "BOTH" else "2FA")
      two_fa_code := some two_fa_code
      two_fa_sent_at := some now
      two_fa_verified_at := none
      liveness_required := require_liveness
      liveness_verified := false
      liveness_verified_at := none
      approved_at := none
      approved_by := none
      denied_at := none
      denied_by := none
      denial_reason := none
      created_at := now
      expires_at := now + 3600 }
  ({ db with events := db.events ++ [event],
             next_event_id := db.next_event_id + 1 }, event)

/-- The dict returned by `BreakGlassMonitor.verify_2fa`; keys a branch
leaves out are `none`. -/
structure TwoFAResult where
  verified : Bool
  error : Option String
  liveness_required : Option Bool
  status : Option String
deriving DecidableEq, Repr

/-- `BreakGlassMonitor.verify_2fa`: reject when the event is absent or
not `PENDING`; transition an expired `PENDING` event to `EXPIRED`;
accept when the code equals the stored `two_fa_code` *or* is a valid
TOTP of the process-wide secret (`±1` window); on acceptance set
`two_fa_verified_at` and, when liveness is not required, transition
directly to `APPROVED`. -/
def verify_2fa (secret : String) (db : DB) (event_id : Nat) (code : String)
    (now : Nat) : DB × TwoFAResult :=
  match find_event db event_id with
  | none => (db, ⟨false, some "Event not found", none, none⟩)
  | some event =>
      if event.status != "PENDING" then
        (db, ⟨false, some ("Event status is " ++ event.status), none, none⟩)
      else if event.is_expired now then
        (db.update_event event_id (fun e => { e with status := "EXPIRED" }),
         ⟨false, some "Event expired", none, none⟩)
      else if event.two_fa_code == some code || verify_code secret code now then
        let newStatus := if !event.liveness_required then "APPROVED" else event.status
        let db2 := db.update_event event_id (fun e =>
          if e.liveness_required then
            { e with two_fa_verified_at := some now }
          else
            { e with two_fa_verified_at := some now
                     status := "APPROVED"
                     approved_at := some now
                     approved_by := some e.advocate_id })
        (db2, ⟨true, none, some event.liveness_required, some newStatus⟩)
      else
        (db, ⟨false, some "Invalid 2FA code", none, none⟩)

/-- The dict returned by the mock `LivenessVerification.verify_face` /
`verify_voice` (confidences 0.92 and 0.89 against threshold 0.85, so
both always verify). -/
structure LivenessResult where
  verified : Bool
  confidence : Rat
  liveness_detected : Bool
  method : String
  timestamp : Nat
deriving DecidableEq, Repr

/-- Mock `LivenessVerification.verify_face`. -/
def verify_face (now : Nat) : LivenessResult :=
  let confidence : Rat := 92 / 100
  ⟨decide (confidence ≥ 85 / 100), confidence, true, "face_recognition", now⟩

/-- Mock `LivenessVerification.verify_voice`. -/
def verify_voice (now : Nat) : LivenessResult :=
  let confidence : Rat := 89 / 100
  ⟨decide (confidence ≥ 85 / 100), confidence, true, "voice_recognition", now⟩

/-- The dict returned by `BreakGlassMonitor.verify_liveness`: either an
error dict or the liveness evaluator's result dict. -/
structure LivenessOutcome where
  verified : Bool
  error : Option String
  result : Option LivenessResult
deriving DecidableEq, Repr

/-- `BreakGlassMonitor.verify_liveness`: requires the event to exist,
`liveness_required` to be set and `two_fa_verified_at` to be non-null;
the event's `status` is never consulted.  On evaluator success (the
mock always succeeds) set `liveness_verified`, transition to
`APPROVED` and commit. -/
def verify_liveness (db : DB) (event_id : Nat) (method : String)
    (now : Nat) : DB × LivenessOutcome :=
  match find_event db event_id with
  | none => (db, ⟨false, some "Event not found", none⟩)
  | some event =>
      if !event.liveness_required then
        (db, ⟨false, some "Liveness not required", none⟩)
      else if event.two_fa_verified_at.isNone then
        (db, ⟨false, some "2FA verification required first", none⟩)
      else
        let result := if method == "face" then verify_face now else verify_voice now
        if result.verified then
          (db.update_event event_id (fun e =>
            { e with liveness_verified := true
                     liveness_verified_at := some now
                     status := "APPROVED"
                     approved_at := some now
                     approved_by := some e.advocate_id }),
           ⟨result.verified, none, some result⟩)
        else
          (db, ⟨result.verified, none, some result⟩)

/-- The dict returned by `BreakGlassMonitor.deny_break_glass`. -/
structure DenyResult where
  success : Bool
  error : Option String
  status : Option String
deriving DecidableEq, Repr

/-- `BreakGlassMonitor.deny_break_glass`: error when the event is
absent; otherwise set `status="DENIED"`, `denied_at`, `denied_by` and
`denial_reason` and commit.  The current status is never checked: the
transition is applied from any state, terminal ones included. -/
def deny_break_glass (db : DB) (event_id : Nat) (denied_by reason : String)
    (now : Nat) : DB × DenyResult :=
  match find_event db event_id with
  | none => (db, ⟨false, some "Event not found", none⟩)
  | some _ =>
      (db.update_event event_id (fun e =>
        { e with status := "DENIED"
                 denied_at := some now
                 denied_by := some denied_by
                 denial_reason := some reason }),
       ⟨true, none, some "DENIED"⟩)

/-! ## Scam analyzer (`AgenticScamAnalyzer`)

Every pattern in `SCAM_INDICATORS` has the shape `\b(alt1|alt2|...)\b`
over lowercase word characters, spaces and apostrophes, so
`re.search(pattern, text)` holds exactly when some alternative occurs
in the text delimited by word boundaries.  The matcher below implements
that occurrence check directly; a pattern is represented by its list of
alternatives. -/

/-- Regex word character (`\w`): alphanumeric or underscore. -/
def wordChar (c : Char) : Bool :=
  c.isAlphanum || c == Char.ofNat 95

/-- Word-boundary condition against the character preceding the
occurrence (`none` at the start of the text). -/
def boundaryBefore : Option Char → Bool
  | none => true
  | some c => !(wordChar c)

/-- Word-boundary condition against the text following the
occurrence. -/
def boundaryAfter : List Char → Bool
  | [] => true
  | c :: _ => !(wordChar c)

/-- Occurrence of `pat` at the current position, with word boundaries
on both sides (`prev` is the character just before the position). -/
def occursHere (pat txt : List Char) (prev : Option Char) : Bool :=
  boundaryBefore prev && pat.isPrefixOf txt && boundaryAfter (txt.drop pat.length)

/-- Search for a word-bounded occurrence of `pat` anywhere in the
text. -/
def searchFrom (pat : List Char) (prev : Option Char) : List Char → Bool
  | [] => occursHere pat [] prev
  | c :: rest => occursHere pat (c :: rest) prev || searchFrom pat (some c) rest

/-- `re.search` of a `\b(alt1|...|altN)\b` pattern (given by its
alternatives) against a text. -/
def re_search (alternatives : List String) (text : String) : Bool :=
  alternatives.any (fun alt => searchFrom alt.toList none text.toList)

/-- One detected-indicator record appended by
`AgenticScamAnalyzer.analyze` (the matched pattern is carried as its
alternative list). -/
structure Indicator where
  category : String
  pattern : List String
  weight : Nat
deriving DecidableEq, Repr

/-- `AgenticScamAnalyzer.SCAM_INDICATORS`: category name, regex
patterns (each as its alternatives), weight. -/
def SCAM_INDICATORS : List (String × List (List String) × Nat) :=
  [("urgency",
    [["urgent", "emergency", "immediately", "right now", "asap", "hurry"],
     ["act now", "time sensitive", "limited time"],
     ["before it" ++ squote ++ "s too late", "last chance"]], 25),
   ("gift_cards",
    [["gift card", "gift", "card", "itunes", "google play", "steam", "amazon card"],
     ["prepaid card", "reload", "redeem"],
     ["scratch off", "activation code"]], 35),
   ("authority_impersonation",
    [["irs", "internal revenue", "tax", "government", "federal"],
     ["social security", "medicare", "medicaid"],
     ["police", "sheriff", "officer", "detective", "fbi", "dea"],
     ["warrant", "arrest", "legal action", "lawsuit"],
     ["bank", "account frozen", "suspicious activity"]], 30),
   ("payment_pressure",
    [["pay now", "send money", "wire transfer", "western union"],
     ["cash", "bitcoin", "cryptocurrency", "venmo", "zelle"],
     ["penalty", "fine", "fee", "charge", "owe"]], 20),
   ("personal_info_request",
    [["social security number", "ssn", "account number", "password"],
     ["pin", "verification code", "security code"],
     ["date of birth", "mother" ++ squote ++ "s maiden name"]], 25),
   ("family_emergency",
    [["grandchild", "grandson", "granddaughter", "nephew", "niece"],
     ["accident", "hospital", "jail", "arrested", "trouble"],
     ["bail", "lawyer", "attorney", "legal fees"]], 30)]

/-- The per-category scan of `analyze`: the first matching pattern of a
category yields one indicator and adds the category's weight once
(`break` after the first hit). -/
def scanIndicators (transcript_lower : String) :
    List (String × List (List String) × Nat) → List Indicator × Nat
  | [] => ([], 0)
  | (category, patterns, weight) :: rest =>
      let (inds, score) := scanIndicators transcript_lower rest
      match patterns.find? (fun pat => re_search pat transcript_lower) with
      | some pat => (⟨category, pat, weight⟩ :: inds, weight + score)
      | none => (inds, score)

/-- The dict returned by `AgenticScamAnalyzer.analyze`. -/
structure AnalyzeResult where
  fraud_score : Nat
  indicators : List Indicator
  action : String
  reasoning : String
  timestamp : Nat
  analysis_method : String
deriving DecidableEq, Repr

/-- `AgenticScamAnalyzer._determine_action`. -/
def determine_action (score : Nat) (indicators : List Indicator) : String × String :=
  let cats := String.intercalate ", " (indicators.map (fun i => i.category))
  if score > 80 then
    ("INTERVENE_AND_BLOCK",
     "CRITICAL THREAT DETECTED (Score: " ++ toString score ++ "/100). " ++
     "Multiple high-risk scam indicators identified: " ++ cats ++
     ". Immediate intervention required to protect user.")
  else if score > 50 then
    ("ACTIVATE_ANSWER_BOT",
     "SUSPICIOUS ACTIVITY DETECTED (Score: " ++ toString score ++ "/100). " ++
     "Scam indicators present: " ++ cats ++
     ". Activating AI answer bot to waste scammer" ++ squote ++
     "s time and gather intelligence.")
  else
    ("ALLOW",
     "LOW RISK (Score: " ++ toString score ++ "/100). " ++
     "Call appears legitimate. Monitoring continues.")

/-- `AgenticScamAnalyzer.analyze` (rule-based path): lowercase once,
scan the categories, clamp the score at 100 with `min`, map to an
action, and return the result dict — whose `timestamp` field is
`datetime.utcnow().isoformat()`, the instant `now` of the call. -/
def analyze (transcript : String) (now : Nat) : AnalyzeResult :=
  let transcript_lower := py_lower transcript
  let (detected_indicators, total_score) := scanIndicators transcript_lower SCAM_INDICATORS
  let fraud_score := min 100 total_score
  let (action, reasoning) := determine_action fraud_score detected_indicators
  { fraud_score := fraud_score
    indicators := detected_indicators
    action := action
    reasoning := reasoning
    timestamp := now
    analysis_method := "RULE_BASED" }

/-! ## Transaction governor (`ContextAwareGovernor`)

`analyze_transaction` uses the transaction timestamp only through
`.time()` (the odd-hours rule) and through string formatting in the
reasoning, so the transaction time is carried as its seconds-past-
midnight value `ttime`. -/

/-- Plain (unbounded) substring occurrence, Python's `"atm" in s`. -/
def containsSub (pat : List Char) : List Char → Bool
  | [] => pat.isPrefixOf []
  | c :: rest => pat.isPrefixOf (c :: rest) || containsSub pat rest

/-- Python `pat in s` on strings. -/
def str_contains (pat s : String) : Bool :=
  containsSub pat.toList s.toList

/-- `ContextAwareGovernor.HIGH_RISK_CATEGORIES`. -/
def HIGH_RISK_CATEGORIES : List String :=
  ["electronics", "wire_transfer", "cryptocurrency", "gift_cards",
   "cash_advance", "gambling", "international_transfer"]

/-- `ContextAwareGovernor.MEDIUM_RISK_CATEGORIES`. -/
def MEDIUM_RISK_CATEGORIES : List String :=
  ["jewelry", "luxury_goods", "travel", "online_shopping"]

/-- `ContextAwareGovernor._is_odd_hours`: `ODD_HOURS_START = 23:00`
exceeds `ODD_HOURS_END = 05:00`, so the wrap-around branch applies:
`t >= 23:00 or t <= 05:00` (both inclusive). -/
def is_odd_hours (ttime : Nat) : Bool :=
  decide (ttime ≥ 23 * 3600) || decide (ttime ≤ 5 * 3600)

/-- Category normalization in `analyze_transaction`:
`category.lower().replace(" ", "_")`. -/
def normalize_category (category : String) : String :=
  String.mk ((py_lower category).toList.map
    (fun c => if c == Char.ofNat 32 then Char.ofNat 95 else c))

/-- The flag list and (pre-clamp) additive risk score computed by the
rule section of `ContextAwareGovernor.analyze_transaction`, in source
order: amount, time, category (high-risk else medium-risk), very-high
amount, odd-hours ATM. -/
def gov_flags_score (amount : Rat) (ttime : Nat) (category merchant : String) :
    List String × Nat :=
  let is_odd_time := is_odd_hours ttime
  let category_lower := normalize_category category
  let is_high_risk_category := HIGH_RISK_CATEGORIES.contains category_lower
  let is_medium_risk_category := MEDIUM_RISK_CATEGORIES.contains category_lower
  let flags :=
    (if amount > 200 then ["HIGH_AMOUNT"] else []) ++
    (if is_odd_time then ["ODD_HOURS"] else []) ++
    (if is_high_risk_category then ["HIGH_RISK_CATEGORY"]
     else if is_medium_risk_category then ["MEDIUM_RISK_CATEGORY"] else []) ++
    (if amount > 1000 then ["VERY_HIGH_AMOUNT"] else []) ++
    (if str_contains "atm" (py_lower merchant) && is_odd_time then ["ODD_HOURS_ATM"] else [])
  let risk_score :=
    (if amount > 200 then 30 else 0) +
    (if is_odd_time then 25 else 0) +
    (if is_high_risk_category then 35
     else if is_medium_risk_category then 15 else 0) +
    (if amount > 1000 then 20 else 0) +
    (if str_contains "atm" (py_lower merchant) && is_odd_time then 15 else 0)
  (flags, risk_score)

/-- `ContextAwareGovernor._determine_risk_and_status`, applied to the
pre-clamp score: the three-flag conjunction gives `CRITICAL`, else the
`≥ 70` / `≥ 40` thresholds give `HIGH` / `MEDIUM`, else `LOW`; only
`LOW` is `APPROVED`. -/
def determine_risk_and_status (risk_score : Nat) (flags : List String)
    (amount : Rat) (category : String) (ttime : Nat) :
    String × String × String :=
  if flags.contains "HIGH_AMOUNT" && flags.contains "ODD_HOURS" &&
     flags.contains "HIGH_RISK_CATEGORY" then
    ("CRITICAL", "PENDING_APPROVAL",
     "CRITICAL RISK TRANSACTION: $" ++ toString amount ++ " " ++ category ++
     " purchase at " ++ toString ttime ++ " (odd hours). " ++
     "This combination of high amount, unusual time, and high-risk category " ++
     "requires immediate Trusted Advocate approval.")
  else if risk_score ≥ 70 then
    ("HIGH", "PENDING_APPROVAL",
     "HIGH RISK TRANSACTION (Score: " ++ toString risk_score ++ "/100): $" ++
     toString amount ++ " " ++ category ++ " purchase. Flags: " ++
     String.intercalate ", " flags ++ ". Requires approval.")
  else if risk_score ≥ 40 then
    ("MEDIUM", "PENDING_APPROVAL",
     "MEDIUM RISK TRANSACTION (Score: " ++ toString risk_score ++ "/100): $" ++
     toString amount ++ " " ++ category ++ " purchase. Flags: " ++
     String.intercalate ", " flags ++ ". Recommended for review.")
  else
    ("LOW", "APPROVED",
     "LOW RISK TRANSACTION (Score: " ++ toString risk_score ++ "/100): $" ++
     toString amount ++ " " ++ category ++ " purchase appears normal.")

/-- The dict returned by `ContextAwareGovernor.analyze_transaction`
(`transaction_details` subdict flattened into the trailing fields;
`timestamp` is the `utcnow()` of the call). -/
structure GovResult where
  risk_level : String
  risk_score : Nat
  status : String
  flags : List String
  reasoning : String
  requires_approval : Bool
  timestamp : Nat
  td_amount : Rat
  td_time : Nat
  td_category : String
  td_merchant : String
deriving DecidableEq, Repr

/-- `ContextAwareGovernor.analyze_transaction`: compute flags and
additive score, derive level/status/reasoning from the *pre-clamp*
score, and return the dict with the score clamped at 100. -/
def analyze_transaction (amount : Rat) (ttime : Nat) (category merchant : String)
    (now : Nat) : GovResult :=
  let (flags, risk_score) := gov_flags_score amount ttime category merchant
  let (risk_level, status, reasoning) :=
    determine_risk_and_status risk_score flags amount category ttime
  { risk_level := risk_level
    risk_score := min 100 risk_score
    status := status
    flags := flags
    reasoning := reasoning
    requires_approval := status == "PENDING_APPROVAL"
    timestamp := now
    td_amount := amount
    td_time := ttime
    td_category := category
    td_merchant := merchant }

/-! ## Virtual card manager and authorization webhook
(`virtual_card_manager.py`, `card_auth_service.py`) -/

/-- `AuthDecision` enum. -/
inductive AuthDecision where
  | APPROVED
  | DECLINED
  | PENDING_ADVOCATE
deriving DecidableEq, Repr

/-- `VirtualCardManager._make_decision`: `≥ 90` or `CRITICAL` declines;
`≥ 70` or `HIGH` goes to pending-advocate; otherwise approve. -/
def make_decision (risk_score : Nat) (risk_level : String) : AuthDecision :=
  if risk_score ≥ 90 || risk_level == "CRITICAL" then .DECLINED
  else if risk_score ≥ 70 || risk_level == "HIGH" then .PENDING_ADVOCATE
  else .APPROVED

/-- `VirtualCardManager._mcc_to_category` (static table; unknown MCC
maps to "Other"). -/
def mcc_to_category (mcc : String) : String :=
  let mcc_map : List (String × String) :=
    [("5732", "Electronics"), ("5734", "Electronics"),
     ("5411", "Groceries"), ("5422", "Groceries"),
     ("5812", "Restaurants"), ("5814", "Restaurants"),
     ("4829", "Wire Transfer"), ("6051", "Cryptocurrency"),
     ("5945", "Gift Cards"), ("5999", "Miscellaneous")]
  match mcc_map.find? (fun kv => kv.1 == mcc) with
  | some kv => kv.2
  | none => "Other"

/-- `VirtualCardManager._get_senior_from_card` (mock binding). -/
def get_senior_from_card (_card_token : String) : String :=
  "senior_001"

/-- The parsed card-network authorization envelope (`request.json()`):
`amount` in cents, and `created` carried as the seconds-past-midnight
of the parsed ISO timestamp (only the time of day reaches the
governor). -/
structure AuthRequest where
  token : String
  card_token : String
  amount : Nat
  merchant_descriptor : String
  merchant_mcc : String
  created : Nat
deriving DecidableEq, Repr

/-- The provider JSON envelope returned by
`VirtualCardManager.authorize_transaction` (metadata flattened; keys a
branch leaves out are `none` / `false`). -/
structure CardDecision where
  result : String
  amount : Nat
  risk_score : Nat
  sentinel_approved : Bool
  decline_reason : Option String
  sentinel_blocked : Bool
  pending_advocate_approval : Bool
  pending_reasoning : Option String
deriving DecidableEq, Repr

/-- `VirtualCardManager.authorize_transaction`: convert cents to
dollars, map the MCC, bind the card to the principal, run the
governor, and map its output through `_make_decision` into the
provider envelope (`PENDING_ADVOCATE` is returned as `DECLINED` with a
pending-advocate marker). -/
def authorize_transaction (auth_request : AuthRequest) (now : Nat) : CardDecision :=
  let amount : Rat := (auth_request.amount : Rat) / 100
  let category := mcc_to_category auth_request.merchant_mcc
  let analysis := analyze_transaction amount auth_request.created category
    auth_request.merchant_descriptor now
  let amount_cents := auth_request.amount
  match make_decision analysis.risk_score analysis.risk_level with
  | .APPROVED =>
      ⟨"APPROVED", amount_cents, analysis.risk_score, true, none, false, false, none⟩
  | .DECLINED =>
      ⟨"DECLINED", amount_cents, analysis.risk_score, false,
       some analysis.reasoning, true, false, none⟩
  | .PENDING_ADVOCATE =>
      ⟨"DECLINED", amount_cents, analysis.risk_score, false, none, false, true,
       some "High-risk transaction requires Trusted Advocate approval"⟩

/-- `VirtualCardManager.verify_webhook_signature`: recompute the
HMAC-SHA256 of the raw body under the provider secret and compare with
`hmac.compare_digest`.  The raw body is signed as an opaque string;
`bodySig` builds the canonical signed view of a raw body. -/
def bodySig (secret body : String) : HmacSig :=
  sign_data secret ⟨0, "", 0, "", body⟩

/-- `VirtualCardManager.verify_webhook_signature`. -/
def verify_webhook_signature (payload : String) (signature : HmacSig)
    (webhook_secret : String) : Bool :=
  bodySig webhook_secret payload == signature

/-- `card_authorization_webhook` up to its response: verify the
signature *only when the `x-lithic-signature` header is present*
(`if x_lithic_signature:`), raising 401 on mismatch before any
decision; then authorize.  The database `SecurityLog` write is
delivery-side and not modelled.  `.error 401` is the
`HTTPException(status_code=401)`. -/
def card_authorization_webhook (webhook_secret body : String)
    (x_lithic_signature : Option HmacSig) (auth_request : AuthRequest)
    (now : Nat) : Except Nat CardDecision :=
  match x_lithic_signature with
  | some signature =>
      if !(verify_webhook_signature body signature webhook_secret) then
        .error 401
      else
        .ok (authorize_transaction auth_request now)
  | none =>
      .ok (authorize_transaction auth_request now)

/-! ## Helper lemmas -/

/-- A row-rewrite that keeps the row satisfying the lookup predicate is
seen by a subsequent `find?`: the first matching row is rewritten in
place and earlier rows, which do not match, are untouched. -/
theorem find?_map_ite {α : Type} (p : α → Bool) (f : α → α) :
    ∀ (l : List α) (x : α), l.find? p = some x → p (f x) = true →
    (l.map fun a => if p a then f a else a).find? p = some (f x) := by
  intro l
  induction l with
  | nil => intro x h _; simp [List.find?] at h
  | cons a t ih =>
      intro x h hpf
      by_cases hpa : p a = true
      · rw [List.find?_cons_of_pos _ hpa] at h
        injection h with h
        subst h
        simp only [List.map, if_pos hpa]
        exact List.find?_cons_of_pos _ hpf
      · have hpa' : ¬ p a = true := hpa
        rw [List.find?_cons_of_neg _ hpa'] at h
        simp only [List.map, if_neg hpa']
        rw [List.find?_cons_of_neg _ hpa']
        exact ih x h hpf

/-- `find_event` after `DB.update_event` on the found row, when the
rewrite preserves the id. -/
theorem find_event_update (db : DB) (event_id : Nat)
    (f : BreakGlassEvent → BreakGlassEvent) (e : BreakGlassEvent)
    (hfind : find_event db event_id = some e) (hid : (f e).id = e.id) :
    find_event (db.update_event event_id f) event_id = some (f e) := by
  have hfind2 : db.events.find? (fun a => a.id == event_id) = some e := hfind
  have hpe := List.find?_some hfind2
  have hpf : ((f e).id == event_id) = true := by rw [hid]; exact hpe
  exact find?_map_ite (fun a => a.id == event_id) f db.events e hfind2 hpf

/-- `get_poa` after `DB.update_poa` on the found row, when the rewrite
preserves the id. -/
theorem get_poa_update (db : DB) (poa_id : Nat)
    (f : SmartPOA → SmartPOA) (p : SmartPOA)
    (hfind : get_poa db poa_id = some p) (hid : (f p).id = p.id) :
    get_poa (db.update_poa poa_id f) poa_id = some (f p) := by
  have hfind2 : db.poas.find? (fun a => a.id == poa_id) = some p := hfind
  have hpe := List.find?_some hfind2
  have hpf : ((f p).id == poa_id) = true := by rw [hid]; exact hpe
  exact find?_map_ite (fun a => a.id == poa_id) f db.poas p hfind2 hpf

/-- `find_token` after `DB.update_token` on the found row, when the
rewrite preserves the id. -/
theorem find_token_update (db : DB) (token_id : Nat)
    (f : EncryptedToken → EncryptedToken) (t : EncryptedToken)
    (hfind : find_token db token_id = some t) (hid : (f t).id = t.id) :
    find_token (db.update_token token_id f) token_id = some (f t) := by
  have hfind2 : db.tokens.find? (fun a => a.id == token_id) = some t := hfind
  have hpe := List.find?_some hfind2
  have hpf : ((f t).id == token_id) = true := by rw [hid]; exact hpe
  exact find?_map_ite (fun a => a.id == token_id) f db.tokens t hfind2 hpf

/-! ## Claims -/

/-- C1.  The ledger signs the canonical view over the `utcnow()`
evaluated inside `create_log`, but the persisted row's `timestamp`
column is filled by its SQLAlchemy column default — a second, later
`utcnow()` at INSERT time.  `verify_log_signature` recomputes the MAC
over the *stored* timestamp, so verification fails for every entry
whose two instants differ (the code nevertheless stamps the row
`signature_verified=True`); it succeeds exactly when the two instants
coincide. -/
theorem c1_signature_verification_fails_on_persisted_entry :
    (let r := create_log "k" DB.empty 1 "POA_CREATED" "ALLOWED" "reason"
      "details" none none false 0 1
     verify_log_signature "k" r.1 r.2.id = false ∧
     r.2.signature_verified = true) ∧
    (let rEq := create_log "k" DB.empty 1 "POA_CREATED" "ALLOWED" "reason"
      "details" none none false 5 5
     verify_log_signature "k" rEq.1 rEq.2.id = true) := by
  decide

/-- A valid POA with scope "medical" and *no* `specific_services` list
(the POA of the claim's example). -/
def c2_poa : SmartPOA :=
  { id := 1, senior_id := "senior_test_001", agent_id := "ai_agent_test"
    scope := "medical", specific_services := none, spend_limit := 500
    expiry_date := 1000, created_at := 0, revoked_at := none
    is_active := true, created_by := some "test_suite", revocation_reason := none }

/-- Store holding only `c2_poa`. -/
def c2_db : DB := { DB.empty with poas := [c2_poa] }

/-- C2, counterexample.  A valid POA created with scope "medical" and no
`allowed_services` list, asked to authorize service "Spotify" for $50,
is *authorized* (`ALLOWED`, no violation, no audit entry of type
`SCOPE_VIOLATION`): with `specific_services` empty, `is_within_scope`
returns true for every service and the scope string is never
consulted. -/
theorem c2_no_services_list_means_all_services_allowed :
    let r := validate_request "k" c2_db 1 "Spotify" (some 50) "payment" 0 0 1
    r.2.authorized = true ∧ r.2.decision = "ALLOWED" ∧
    r.2.violation_type = none ∧
    r.1.audit_logs.filter (fun l => l.action_type == "SCOPE_VIOLATION") = [] := by
  decide

/-- C2, amended.  For every *valid* POA with a non-empty
`specific_services` list that does not contain the requested service,
`validate_request` returns `authorized=false`, `decision=BLOCKED`,
`violation_type=SCOPE`, and appends exactly one `SCOPE_VIOLATION` /
`BLOCKED` audit entry; a POA whose `specific_services` is absent or
empty treats every service as in scope. -/
theorem c2_scope_violation_blocked (secret_key : String) (db : DB)
    (poa_id : Nat) (service_name action : String) (amount : Option Rat)
    (now sign_time store_time : Nat) (poa : SmartPOA) (services : List String)
    (hfind : get_poa db poa_id = some poa)
    (hvalid : poa.is_valid now = true)
    (hsvc : poa.specific_services = some services)
    (hne : services ≠ [])
    (hnotin : services.contains service_name = false) :
    (let r := validate_request secret_key db poa_id service_name amount action
      now sign_time store_time
     r.2.authorized = false ∧ r.2.decision = "BLOCKED" ∧
     r.2.violation_type = some "SCOPE" ∧
     ∃ log : AuditLog, r.1.audit_logs = db.audit_logs ++ [log] ∧
       log.action_type = "SCOPE_VIOLATION" ∧ log.decision = "BLOCKED") ∧
    (∀ q : SmartPOA, (q.specific_services = none ∨ q.specific_services = some []) →
      ∀ s, q.is_within_scope s = true) := by
  constructor
  · have hscope : poa.is_within_scope service_name = false := by
      unfold SmartPOA.is_within_scope
      rw [hsvc]
      have hie : services.isEmpty = false := by
        cases services with
        | nil => exact absurd rfl hne
        | cons a t => rfl
      simp only [hie, hnotin]
      rfl
    simp only [validate_request, hfind, hvalid, hscope, Bool.not_true,
      Bool.false_eq_true, if_false, Bool.not_false, if_true, create_log]
    exact ⟨trivial, trivial, trivial, _, rfl, rfl, rfl⟩
  · intro q hq s
    unfold SmartPOA.is_within_scope
    rcases hq with h | h <;> rw [h]
    rfl

/-- The POA of the test suite's scope-violation scenario: a valid POA
restricted to two medical services. -/
def c2w_poa : SmartPOA :=
  { id := 1, senior_id := "senior_test_001", agent_id := "ai_agent_test"
    scope := "medical", specific_services := some ["Medical Bills", "Pharmacy"]
    spend_limit := 500, expiry_date := 1000, created_at := 0, revoked_at := none
    is_active := true, created_by := some "test_suite", revocation_reason := none }

/-- Store holding only `c2w_poa`. -/
def c2w_db : DB := { DB.empty with poas := [c2w_poa] }

/-- C2, witness: the amended statement instantiated at the restricted
POA asked to pay Spotify. -/
theorem c2_scope_violation_blocked_witness :
    (let r := validate_request "k" c2w_db 1 "Spotify" (some 50) "payment" 0 0 1
     r.2.authorized = false ∧ r.2.decision = "BLOCKED" ∧
     r.2.violation_type = some "SCOPE" ∧
     ∃ log : AuditLog, r.1.audit_logs = c2w_db.audit_logs ++ [log] ∧
       log.action_type = "SCOPE_VIOLATION" ∧ log.decision = "BLOCKED") ∧
    (∀ q : SmartPOA, (q.specific_services = none ∨ q.specific_services = some []) →
      ∀ s, q.is_within_scope s = true) :=
  c2_scope_violation_blocked "k" c2w_db 1 "Spotify" "payment" (some 50) 0 0 1
    c2w_poa ["Medical Bills", "Pharmacy"] (by decide) (by decide) (by decide)
    (by decide) (by decide)

/-- A break-glass event already in the terminal `APPROVED` state. -/
def c3_event : BreakGlassEvent :=
  { id := 1, audit_log_id := 1, trigger_reason := "SPEND_LIMIT_EXCEEDED"
    trigger_details := "d", status := "APPROVED", advocate_id := "advocate"
    verification_method := some "2FA", two_fa_code := some "123456"
    two_fa_sent_at := some 0, two_fa_verified_at := some 1
    liveness_required := false, liveness_verified := false
    liveness_verified_at := none, approved_at := some 1
    approved_by := some "advocate", denied_at := none, denied_by := none
    denial_reason := none, created_at := 0, expires_at := 3600 }

/-- Store holding only `c3_event`. -/
def c3_db : DB := { DB.empty with events := [c3_event] }

/-- C3, counterexample.  `deny_break_glass` never checks the current
status: applied to an event already terminal (`APPROVED`), it succeeds
and mutates the event to `DENIED`, so terminal states are not one-way
and deny is not restricted to `PENDING`. -/
theorem c3_deny_mutates_terminal_state :
    c3_event.status = "APPROVED" ∧
    (let r := deny_break_glass c3_db 1 "denier" "changed my mind" 10
     r.2.success = true ∧
     (find_event r.1 1).map BreakGlassEvent.status = some "DENIED") := by
  decide

/-- C3, amended.  `verify_2fa` alone respects the state machine: on a
non-`PENDING` event it returns an error and leaves the store untouched
(and it moves an expired `PENDING` event to `EXPIRED`).
`deny_break_glass` transitions any existing event to `DENIED`
regardless of its current state, terminal states included, and
`verify_liveness` transitions any event with `liveness_required` and a
non-null `two_fa_verified_at` to `APPROVED` regardless of its current
state; so the monotone progression `PENDING → \x7bAPPROVED, DENIED,
EXPIRED\x7d` is not enforced by the monitor. -/
theorem c3_transition_guards (db : DB) (event_id : Nat) (e : BreakGlassEvent)
    (hfind : find_event db event_id = some e) :
    (e.status ≠ "PENDING" → ∀ secret code now,
      verify_2fa secret db event_id code now =
        (db, ⟨false, some ("Event status is " ++ e.status), none, none⟩)) ∧
    (e.status = "PENDING" → ∀ secret code now, e.is_expired now = true →
      (find_event (verify_2fa secret db event_id code now).1 event_id).map
        BreakGlassEvent.status = some "EXPIRED") ∧
    (∀ denied_by reason now,
      (deny_break_glass db event_id denied_by reason now).2.success = true ∧
      (find_event (deny_break_glass db event_id denied_by reason now).1 event_id).map
        BreakGlassEvent.status = some "DENIED") ∧
    (e.liveness_required = true → e.two_fa_verified_at.isSome = true →
      ∀ method now,
        (find_event (verify_liveness db event_id method now).1 event_id).map
          BreakGlassEvent.status = some "APPROVED") := by
  refine ⟨?_, ?_, ?_, ?_⟩
  · intro hst secret code now
    have hne : (e.status != "PENDING") = true := by
      simp [bne_iff_ne, hst]
    simp only [verify_2fa, hfind, hne, if_true]
  · intro hst secret code now hexp
    have hne : (e.status != "PENDING") = false := by
      simp [bne_eq_false_iff_eq, hst]
    simp only [verify_2fa, hfind, hne, hexp, Bool.false_eq_true, if_false, if_true]
    rw [find_event_update db event_id _ e hfind rfl]
    rfl
  · intro denied_by reason now
    refine ⟨by simp only [deny_break_glass, hfind], ?_⟩
    simp only [deny_break_glass, hfind]
    rw [find_event_update db event_id _ e hfind rfl]
    rfl
  · intro hlr htfa method now
    have h2 : e.two_fa_verified_at.isNone = false := by
      rcases hval : e.two_fa_verified_at with _ | v
      · rw [hval] at htfa
        exact absurd htfa (by simp)
      · rfl
    simp only [verify_liveness, hfind, hlr, Bool.not_true, Bool.false_eq_true,
      if_false, h2, if_true]
    by_cases hm : (method == "face") = true
    · simp only [hm, if_true, verify_face]
      have hv : (decide ((92 : Rat) / 100 ≥ 85 / 100)) = true :=
        decide_eq_true (by norm_num)
      simp only [hv, if_true]
      rw [find_event_update db event_id _ e hfind rfl]
      rfl
    · have hm' : (method == "face") = false := by simpa using hm
      simp only [hm', Bool.false_eq_true, if_false, verify_voice]
      have hv : (decide ((89 : Rat) / 100 ≥ 85 / 100)) = true :=
        decide_eq_true (by norm_num)
      simp only [hv, if_true]
      rw [find_event_update db event_id _ e hfind rfl]
      rfl

/-- C3, witness: the amended statement instantiated at the store whose
single event is already `APPROVED`. -/
theorem c3_transition_guards_witness :
    (c3_event.status ≠ "PENDING" → ∀ secret code now,
      verify_2fa secret c3_db 1 code now =
        (c3_db, ⟨false, some ("Event status is " ++ c3_event.status), none, none⟩)) ∧
    (c3_event.status = "PENDING" → ∀ secret code now, c3_event.is_expired now = true →
      (find_event (verify_2fa secret c3_db 1 code now).1 1).map
        BreakGlassEvent.status = some "EXPIRED") ∧
    (∀ denied_by reason now,
      (deny_break_glass c3_db 1 denied_by reason now).2.success = true ∧
      (find_event (deny_break_glass c3_db 1 denied_by reason now).1 1).map
        BreakGlassEvent.status = some "DENIED") ∧
    (c3_event.liveness_required = true → c3_event.two_fa_verified_at.isSome = true →
      ∀ method now,
        (find_event (verify_liveness c3_db 1 method now).1 1).map
          BreakGlassEvent.status = some "APPROVED") :=
  c3_transition_guards c3_db 1 c3_event (by decide)

/-- A POA that expired at instant 1 (created with a negative
`expiry_days`, as in the test suite's expired-POA scenario). -/
def c5_poa : SmartPOA :=
  { id := 1, senior_id := "senior_test_003", agent_id := "ai_agent_test"
    scope := "banking", specific_services := none, spend_limit := 1000
    expiry_date := 1, created_at := 0, revoked_at := none
    is_active := true, created_by := some "test_suite", revocation_reason := none }

/-- Store holding only `c5_poa`, with an empty ledger. -/
def c5_db : DB := { DB.empty with poas := [c5_poa] }

/-- C5, counterexample.  Validating against the expired POA returns
`BLOCKED` with the expected reasoning, but the invalid-POA branch
performs *no* ledger write: the store is returned unchanged, no entry
(of type `POA_INVALID` or any other) is appended, and no
`POA_INVALID` action type exists anywhere in the gatekeeper. -/
theorem c5_invalid_poa_appends_no_audit_entry :
    let r := validate_request "k" c5_db 1 "Bank Transfer" (some 100) "transfer" 5 5 6
    r.2.decision = "BLOCKED" ∧ r.1 = c5_db ∧ r.1.audit_logs = [] := by
  decide

/-- C5, amended.  For every POA that is not valid (expired, revoked, or
inactive), `validate_request` returns `authorized=false`,
`decision=BLOCKED` with reasoning exactly "POA is expired or revoked"
(which contains that phrase), and leaves the store untouched: no
`POA_INVALID` (or any) audit entry is appended. -/
theorem c5_invalid_poa_blocked (secret_key : String) (db : DB) (poa_id : Nat)
    (service_name action : String) (amount : Option Rat)
    (now sign_time store_time : Nat) (poa : SmartPOA)
    (hfind : get_poa db poa_id = some poa)
    (hinvalid : poa.is_valid now = false) :
    validate_request secret_key db poa_id service_name amount action
      now sign_time store_time =
    (db, ⟨false, "BLOCKED", "POA is expired or revoked", true, none, none⟩) := by
  simp only [validate_request, hfind, hinvalid, Bool.not_false, if_true]

/-- C5, witness: the amended statement instantiated at the expired
POA. -/
theorem c5_invalid_poa_blocked_witness :
    validate_request "k" c5_db 1 "Bank Transfer" (some 100) "transfer" 5 5 6 =
    (c5_db, ⟨false, "BLOCKED", "POA is expired or revoked", true, none, none⟩) :=
  c5_invalid_poa_blocked "k" c5_db 1 "Bank Transfer" "transfer" (some 100) 5 5 6
    c5_poa (by decide) (by decide)

/-- A POA that has been revoked (instant 1). -/
def c6_poa : SmartPOA :=
  { id := 1, senior_id := "senior_001", agent_id := "ai_agent"
    scope := "subscriptions", specific_services := none, spend_limit := 100
    expiry_date := 1000, created_at := 0, revoked_at := some 1
    is_active := false, created_by := none, revocation_reason := some "fraud" }

/-- An unexpired token owned by the revoked POA. -/
def c6_token : EncryptedToken :=
  { id := 1, poa_id := 1, service_name := "netflix", token_type := "access"
    encrypted_token := encrypt_token "ek" "oauth-secret", expires_at := none
    created_at := 0, last_used := none }

/-- Store holding the revoked POA and its token. -/
def c6_db : DB := { DB.empty with poas := [c6_poa], tokens := [c6_token] }

/-- C6, counterexample.  The owning POA is revoked (hence not valid),
yet `get_decrypted_token` returns the plaintext: the reveal path never
consults the POA. -/
theorem c6_reveal_ignores_poa_validity :
    (get_poa c6_db 1).map (fun p => p.is_valid 10) = some false ∧
    (get_decrypted_token "ek" c6_db 1 10).2 = some "oauth-secret" := by
  decide

/-- C6, amended.  `get_decrypted_token` returns no plaintext exactly
when the token record is absent or the token itself is expired — the
validity of the owning POA is not among the checks; on success it
updates the token's `last_used` to the current instant and returns the
decrypted plaintext, which is the original (Fernet round-trip). -/
theorem c6_reveal_token_checks (enc_key : String) (db : DB) (token_id now : Nat) :
    (find_token db token_id = none →
      get_decrypted_token enc_key db token_id now = (db, none)) ∧
    (∀ t, find_token db token_id = some t →
      (∀ e, t.expires_at = some e → e < now →
        get_decrypted_token enc_key db token_id now = (db, none)) ∧
      ((match t.expires_at with
        | some e => decide (e < now)
        | none => false) = false →
        (get_decrypted_token enc_key db token_id now).2 =
          some (decrypt_token enc_key t.encrypted_token) ∧
        find_token (get_decrypted_token enc_key db token_id now).1 token_id =
          some { t with last_used := some now })) ∧
    (∀ x, decrypt_token enc_key (encrypt_token enc_key x) = x) := by
  refine ⟨?_, ?_, ?_⟩
  · intro h
    simp only [get_decrypted_token, h]
  · intro t hfind
    constructor
    · intro e he hlt
      have hexp : (match t.expires_at with
          | some e => decide (e < now)
          | none => false) = true := by
        rw [he]
        exact decide_eq_true hlt
      simp only [get_decrypted_token, hfind, hexp, if_true]
    · intro hnx
      simp only [get_decrypted_token, hfind, hnx, Bool.false_eq_true, if_false]
      exact ⟨trivial, find_token_update db token_id _ t hfind rfl⟩
  · intro x
    rfl

/-- C6, witness: the amended statement instantiated at the revoked
POA's token store. -/
theorem c6_reveal_token_checks_witness :
    (find_token c6_db 1 = none →
      get_decrypted_token "ek" c6_db 1 10 = (c6_db, none)) ∧
    (∀ t, find_token c6_db 1 = some t →
      (∀ e, t.expires_at = some e → e < 10 →
        get_decrypted_token "ek" c6_db 1 10 = (c6_db, none)) ∧
      ((match t.expires_at with
        | some e => decide (e < 10)
        | none => false) = false →
        (get_decrypted_token "ek" c6_db 1 10).2 =
          some (decrypt_token "ek" t.encrypted_token) ∧
        find_token (get_decrypted_token "ek" c6_db 1 10).1 1 =
          some { t with last_used := some 10 })) ∧
    (∀ x, decrypt_token "ek" (encrypt_token "ek" x) = x) :=
  c6_reveal_token_checks "ek" c6_db 1 10

/-- A POA already revoked at instant 1. -/
def c7_poa : SmartPOA :=
  { id := 1, senior_id := "senior_001", agent_id := "ai_agent"
    scope := "utilities", specific_services := none, spend_limit := 200
    expiry_date := 1000, created_at := 0, revoked_at := some 1
    is_active := false, created_by := none, revocation_reason := some "first" }

/-- Store holding only the already-revoked POA, with an empty ledger. -/
def c7_db : DB := { DB.empty with poas := [c7_poa] }

/-- C7, counterexample.  Revoking the already-revoked POA returns
*true* (not false) and appends another `POA_REVOKED` audit entry:
`revoke_poa` only returns false when the row is absent, so it is not
idempotent. -/
theorem c7_second_revoke_returns_true_and_logs :
    c7_poa.revoked_at = some 1 ∧
    (let r := revoke_poa "k" c7_db 1 "again" "bob" 5 6 7
     r.2 = true ∧ r.1.audit_logs.length = 1 ∧
     (r.1.audit_logs.map (fun l => l.action_type)) = ["POA_REVOKED"]) := by
  decide

/-- C7, amended.  `revoke_poa` returns false exactly when the POA does
not exist; whenever the row exists — already revoked or not — it sets
`is_active=false`, `revoked_at` to the current instant and the
revocation reason, appends a `POA_REVOKED` / `ALLOWED` audit entry,
and returns true, so a second revocation repeats the update and
appends a duplicate entry. -/
theorem c7_revoke_not_idempotent (secret_key : String) (db : DB) (poa_id : Nat)
    (reason revoked_by : String) (revoke_time sign_time store_time : Nat) :
    (get_poa db poa_id = none →
      revoke_poa secret_key db poa_id reason revoked_by
        revoke_time sign_time store_time = (db, false)) ∧
    (∀ poa, get_poa db poa_id = some poa →
      let r := revoke_poa secret_key db poa_id reason revoked_by
        revoke_time sign_time store_time
      r.2 = true ∧
      get_poa r.1 poa_id = some { poa with is_active := false
                                           revoked_at := some revoke_time
                                           revocation_reason := some reason } ∧
      ∃ log : AuditLog, r.1.audit_logs = db.audit_logs ++ [log] ∧
        log.action_type = "POA_REVOKED" ∧ log.decision = "ALLOWED") := by
  constructor
  · intro h
    simp only [revoke_poa, h]
  · intro poa hfind
    simp only [revoke_poa, hfind, create_log]
    refine ⟨trivial, ?_, _, rfl, rfl, rfl⟩
    exact get_poa_update db poa_id _ poa hfind rfl

/-- C7, witness: the amended statement instantiated at the
already-revoked POA. -/
theorem c7_revoke_not_idempotent_witness :
    (get_poa c7_db 1 = none →
      revoke_poa "k" c7_db 1 "again" "bob" 5 6 7 = (c7_db, false)) ∧
    (∀ poa, get_poa c7_db 1 = some poa →
      let r := revoke_poa "k" c7_db 1 "again" "bob" 5 6 7
      r.2 = true ∧
      get_poa r.1 1 = some { poa with is_active := false
                                      revoked_at := some 5
                                      revocation_reason := some "again" } ∧
      ∃ log : AuditLog, r.1.audit_logs = c7_db.audit_logs ++ [log] ∧
        log.action_type = "POA_REVOKED" ∧ log.decision = "ALLOWED") :=
  c7_revoke_not_idempotent "k" c7_db 1 "again" "bob" 5 6 7

/-- A card-network authorization request: $87.50 in cents at a grocery
MCC, daytime (14:00). -/
def c4_auth : AuthRequest :=
  { token := "auth_abc123", card_token := "card_xyz789", amount := 8750
    merchant_descriptor := "SAFEWAY", merchant_mcc := "5411"
    created := 14 * 3600 }

/-- C4, counterexample.  A webhook request that carries *no*
`x-lithic-signature` header is processed and answered with an
authorization decision even though no signature was ever verified
(`if x_lithic_signature:` skips the check entirely when the header is
absent), so signature verification does not happen for every inbound
request. -/
theorem c4_missing_header_skips_verification :
    card_authorization_webhook "sek" "rawbody" none c4_auth 0 =
      .ok (authorize_transaction c4_auth 0) ∧
    ∃ d, card_authorization_webhook "sek" "rawbody" none c4_auth 0 = .ok d :=
  ⟨rfl, ⟨_, rfl⟩⟩

/-- C4, amended.  *When the signature header is present*, the
HMAC-SHA256 of the raw body is verified against the provider secret
(with `hmac.compare_digest`, a constant-time comparison) before any
processing, and on mismatch the service responds 401 without making an
authorization decision; a request without the header is processed with
no verification at all. -/
theorem c4_signature_gate (webhook_secret body : String) (sig : HmacSig)
    (auth : AuthRequest) (now : Nat) :
    (verify_webhook_signature body sig webhook_secret = false →
      card_authorization_webhook webhook_secret body (some sig) auth now =
        .error 401) ∧
    (verify_webhook_signature body sig webhook_secret = true →
      card_authorization_webhook webhook_secret body (some sig) auth now =
        .ok (authorize_transaction auth now)) ∧
    card_authorization_webhook webhook_secret body none auth now =
      .ok (authorize_transaction auth now) := by
  refine ⟨?_, ?_, rfl⟩
  · intro h
    simp only [card_authorization_webhook, h, Bool.not_false, if_true]
  · intro h
    simp only [card_authorization_webhook, h, Bool.not_true, Bool.false_eq_true,
      if_false]

/-- C4, witness: a mismatched signature (signed over a different body)
is rejected with 401 before any decision; the matching signature and
the absent-header cases are instantiated alongside. -/
theorem c4_signature_gate_witness :
    (verify_webhook_signature "rawbody" (bodySig "sek" "otherbody") "sek" = false ∧
      card_authorization_webhook "sek" "rawbody" (some (bodySig "sek" "otherbody"))
        c4_auth 0 = .error 401) ∧
    card_authorization_webhook "sek" "rawbody" none c4_auth 0 =
      .ok (authorize_transaction c4_auth 0) :=
  ⟨⟨by decide,
    (c4_signature_gate "sek" "rawbody" (bodySig "sek" "otherbody") c4_auth 0).1
      (by decide)⟩,
   (c4_signature_gate "sek" "rawbody" (bodySig "sek" "otherbody") c4_auth 0).2.2⟩

/-- C8, counterexample.  The analyzer's returned dict embeds
`datetime.utcnow().isoformat()` as its `timestamp` field, so two runs
on the same transcript at different instants are not bitwise
identical. -/
theorem c8_output_embeds_wall_clock :
    analyze "hello" 0 ≠ analyze "hello" 1 ∧
    (analyze "hello" 0).timestamp = 0 ∧ (analyze "hello" 1).timestamp = 1 := by
  decide

/-- C8, amended.  For every transcript the fraud score lies in
[0, 100], and the analyzer is deterministic in everything except the
`timestamp` field of the returned dict: score, indicators, action,
reasoning and method are identical across runs, while `timestamp`
records the wall clock of each run. -/
theorem c8_score_bounded_and_deterministic (transcript : String) (t1 t2 : Nat) :
    (analyze transcript t1).fraud_score ≤ 100 ∧
    (analyze transcript t1).fraud_score = (analyze transcript t2).fraud_score ∧
    (analyze transcript t1).indicators = (analyze transcript t2).indicators ∧
    (analyze transcript t1).action = (analyze transcript t2).action ∧
    (analyze transcript t1).reasoning = (analyze transcript t2).reasoning ∧
    (analyze transcript t1).analysis_method = (analyze transcript t2).analysis_method ∧
    (analyze transcript t1).timestamp = t1 := by
  rcases hscan : scanIndicators (py_lower transcript) SCAM_INDICATORS with ⟨inds, total⟩
  rcases hact : determine_action (min 100 total) inds with ⟨act, reas⟩
  simp only [analyze, hscan, hact]
  exact ⟨Nat.min_le_left 100 total, trivial, trivial, trivial, trivial, trivial, trivial⟩

/-- C9.  The governor's level is `CRITICAL` whenever the flags
`HIGH_AMOUNT`, `ODD_HOURS` and `HIGH_RISK_CATEGORY` are all present;
otherwise it is `HIGH` iff the pre-clamp score is ≥ 70, `MEDIUM` iff it
is in [40, 70), else `LOW`; the status is `APPROVED` iff the level is
`LOW`; and the returned score is the pre-clamp score clamped at 100. -/
theorem c9_risk_level_status_mapping (amount : Rat) (ttime : Nat)
    (category merchant : String) (now : Nat) :
    (((gov_flags_score amount ttime category merchant).1.contains "HIGH_AMOUNT" = true ∧
      (gov_flags_score amount ttime category merchant).1.contains "ODD_HOURS" = true ∧
      (gov_flags_score amount ttime category merchant).1.contains "HIGH_RISK_CATEGORY" = true) →
      (analyze_transaction amount ttime category merchant now).risk_level = "CRITICAL" ∧
      (analyze_transaction amount ttime category merchant now).status = "PENDING_APPROVAL") ∧
    (¬((gov_flags_score amount ttime category merchant).1.contains "HIGH_AMOUNT" = true ∧
       (gov_flags_score amount ttime category merchant).1.contains "ODD_HOURS" = true ∧
       (gov_flags_score amount ttime category merchant).1.contains "HIGH_RISK_CATEGORY" = true) →
      (((analyze_transaction amount ttime category merchant now).risk_level = "HIGH" ↔
         70 ≤ (gov_flags_score amount ttime category merchant).2) ∧
       ((analyze_transaction amount ttime category merchant now).risk_level = "MEDIUM" ↔
         40 ≤ (gov_flags_score amount ttime category merchant).2 ∧
         (gov_flags_score amount ttime category merchant).2 < 70) ∧
       ((analyze_transaction amount ttime category merchant now).risk_level = "LOW" ↔
         (gov_flags_score amount ttime category merchant).2 < 40))) ∧
    ((analyze_transaction amount ttime category merchant now).status = "APPROVED" ↔
      (analyze_transaction amount ttime category merchant now).risk_level = "LOW") ∧
    (analyze_transaction amount ttime category merchant now).risk_score =
      min 100 (gov_flags_score amount ttime category merchant).2 := by
  rcases hgs : gov_flags_score amount ttime category merchant with ⟨flags, score⟩
  rcases hd : determine_risk_and_status score flags amount category ttime with ⟨lvl, st, reas⟩
  simp only [analyze_transaction, hgs, hd]
  unfold determine_risk_and_status at hd
  by_cases hc : (flags.contains "HIGH_AMOUNT" && flags.contains "ODD_HOURS" &&
      flags.contains "HIGH_RISK_CATEGORY") = true
  · rw [if_pos hc] at hd
    simp only [Prod.mk.injEq] at hd
    obtain ⟨hl, hs, -⟩ := hd
    subst hl; subst hs
    have hprops : flags.contains "HIGH_AMOUNT" = true ∧
        flags.contains "ODD_HOURS" = true ∧
        flags.contains "HIGH_RISK_CATEGORY" = true := by
      simp only [Bool.and_eq_true] at hc
      exact ⟨hc.1.1, hc.1.2, hc.2⟩
    exact ⟨fun _ => ⟨rfl, rfl⟩, fun hn => absurd hprops hn, by decide, trivial⟩
  · rw [if_neg hc] at hd
    have hcprops : ¬(flags.contains "HIGH_AMOUNT" = true ∧
        flags.contains "ODD_HOURS" = true ∧
        flags.contains "HIGH_RISK_CATEGORY" = true) := by
      intro h
      exact hc (by simp only [Bool.and_eq_true]; exact ⟨⟨h.1, h.2.1⟩, h.2.2⟩)
    by_cases h70 : score ≥ 70
    · rw [if_pos h70] at hd
      simp only [Prod.mk.injEq] at hd
      obtain ⟨hl, hs, -⟩ := hd
      subst hl; subst hs
      refine ⟨fun h => absurd h hcprops, fun _ => ⟨?_, ?_, ?_⟩, by decide, trivial⟩
      · exact ⟨fun _ => h70, fun _ => rfl⟩
      · exact ⟨fun hx => absurd hx (by decide), fun hx => absurd h70 (by omega)⟩
      · exact ⟨fun hx => absurd hx (by decide), fun hx => absurd h70 (by omega)⟩
    · by_cases h40 : score ≥ 40
      · rw [if_neg h70, if_pos h40] at hd
        simp only [Prod.mk.injEq] at hd
        obtain ⟨hl, hs, -⟩ := hd
        subst hl; subst hs
        refine ⟨fun h => absurd h hcprops, fun _ => ⟨?_, ?_, ?_⟩, by decide, trivial⟩
        · exact ⟨fun hx => absurd hx (by decide), fun hx => absurd hx h70⟩
        · exact ⟨fun _ => ⟨h40, by omega⟩, fun _ => rfl⟩
        · exact ⟨fun hx => absurd hx (by decide), fun hx => absurd hx (by omega)⟩
      · rw [if_neg h70, if_neg h40] at hd
        simp only [Prod.mk.injEq] at hd
        obtain ⟨hl, hs, -⟩ := hd
        subst hl; subst hs
        refine ⟨fun h => absurd h hcprops, fun _ => ⟨?_, ?_, ?_⟩, by decide, trivial⟩
        · exact ⟨fun hx => absurd hx (by decide), fun hx => absurd hx h70⟩
        · exact ⟨fun hx => absurd hx (by decide), fun hx => absurd hx.1 h40⟩
        · exact ⟨fun _ => by omega, fun _ => rfl⟩

/-- C9, witness: the 2 AM (02:00) electronics purchase of $1300 at
Best Buy carries all three critical flags and is `CRITICAL` /
`PENDING_APPROVAL`. -/
theorem c9_risk_level_status_mapping_witness :
    ((gov_flags_score 1300 7200 "Electronics" "Best Buy").1.contains "HIGH_AMOUNT" = true ∧
     (gov_flags_score 1300 7200 "Electronics" "Best Buy").1.contains "ODD_HOURS" = true ∧
     (gov_flags_score 1300 7200 "Electronics" "Best Buy").1.contains "HIGH_RISK_CATEGORY" = true) ∧
    (analyze_transaction 1300 7200 "Electronics" "Best Buy" 0).risk_level = "CRITICAL" ∧
    (analyze_transaction 1300 7200 "Electronics" "Best Buy" 0).status = "PENDING_APPROVAL" := by
  have hp : (gov_flags_score 1300 7200 "Electronics" "Best Buy").1.contains "HIGH_AMOUNT" = true ∧
      (gov_flags_score 1300 7200 "Electronics" "Best Buy").1.contains "ODD_HOURS" = true ∧
      (gov_flags_score 1300 7200 "Electronics" "Best Buy").1.contains "HIGH_RISK_CATEGORY" = true := by
    decide
  exact ⟨hp,
    ((c9_risk_level_status_mapping 1300 7200 "Electronics" "Best Buy" 0).1 hp).1,
    ((c9_risk_level_status_mapping 1300 7200 "Electronics" "Best Buy" 0).1 hp).2⟩

/-- C10.  For a `PENDING`, unexpired event, `verify_2fa` accepts a code
exactly when it equals the event's stored code *or* it is a valid TOTP
of the single process-wide secret (±1 five-minute window).
Consequently the current-window TOTP code is accepted on *any* two such
events — also on one it was never issued for — and approves an event
that does not require liveness. -/
theorem c10_shared_totp_secret (secret : String) (db : DB) (id1 id2 : Nat)
    (e1 e2 : BreakGlassEvent) (now : Nat)
    (h1 : find_event db id1 = some e1) (h2 : find_event db id2 = some e2)
    (hp1 : e1.status = "PENDING") (hp2 : e2.status = "PENDING")
    (hx1 : e1.is_expired now = false) (hx2 : e2.is_expired now = false) :
    (∀ c, (verify_2fa secret db id1 c now).2.verified =
      (e1.two_fa_code == some c || verify_code secret c now)) ∧
    (verify_2fa secret db id1 (generate_code secret now) now).2.verified = true ∧
    (verify_2fa secret db id2 (generate_code secret now) now).2.verified = true ∧
    (e2.liveness_required = false →
      (find_event (verify_2fa secret db id2 (generate_code secret now) now).1 id2).map
        BreakGlassEvent.status = some "APPROVED") := by
  have hgen : verify_code secret (generate_code secret now) now = true := by
    unfold verify_code generate_code
    simp
  have hne1 : (e1.status != "PENDING") = false := by simp [bne_eq_false_iff_eq, hp1]
  have hne2 : (e2.status != "PENDING") = false := by simp [bne_eq_false_iff_eq, hp2]
  have haccept : ∀ (idx : Nat) (e : BreakGlassEvent),
      find_event db idx = some e → (e.status != "PENDING") = false →
      e.is_expired now = false → ∀ c,
      (verify_2fa secret db idx c now).2.verified =
        (e.two_fa_code == some c || verify_code secret c now) := by
    intro idx e hfind hne hx c
    by_cases hacc : (e.two_fa_code == some c || verify_code secret c now) = true
    · simp only [verify_2fa, hfind, hne, Bool.false_eq_true, if_false, hx, hacc,
        if_true]
    · have hacc' : (e.two_fa_code == some c || verify_code secret c now) = false := by
        simpa using hacc
      simp only [verify_2fa, hfind, hne, Bool.false_eq_true, if_false, hx, hacc']
  have hacc2 : (e2.two_fa_code == some (generate_code secret now) ||
      verify_code secret (generate_code secret now) now) = true := by
    rw [hgen, Bool.or_true]
  refine ⟨haccept id1 e1 h1 hne1 hx1, ?_, ?_, ?_⟩
  · rw [haccept id1 e1 h1 hne1 hx1, hgen, Bool.or_true]
  · rw [haccept id2 e2 h2 hne2 hx2, hgen, Bool.or_true]
  · intro hl
    simp only [verify_2fa, h2, hne2, Bool.false_eq_true, if_false, hx2, hacc2,
      if_true]
    rw [find_event_update db id2 _ e2 h2 (by simp [hl])]
    simp [hl]

/-- A pending break-glass event whose stored code is "111111". -/
def c10_e1 : BreakGlassEvent :=
  { id := 1, audit_log_id := 1, trigger_reason := "SPEND_LIMIT_EXCEEDED"
    trigger_details := "d1", status := "PENDING", advocate_id := "advocate"
    verification_method := some "2FA", two_fa_code := some "111111"
    two_fa_sent_at := some 0, two_fa_verified_at := none
    liveness_required := false, liveness_verified := false
    liveness_verified_at := none, approved_at := none, approved_by := none
    denied_at := none, denied_by := none, denial_reason := none
    created_at := 0, expires_at := 3600 }

/-- A second pending break-glass event whose stored code is
"222222". -/
def c10_e2 : BreakGlassEvent :=
  { c10_e1 with id := 2, audit_log_id := 2, trigger_details := "d2"
                two_fa_code := some "222222" }

/-- Store holding the two pending events. -/
def c10_db : DB := { DB.empty with events := [c10_e1, c10_e2] }

/-- C10, witness: at instant 400 the current-window TOTP code of the
process secret is accepted on both pending events and approves the
second, whose own stored code is different. -/
theorem c10_shared_totp_secret_witness :
    (∀ c, (verify_2fa "S" c10_db 1 c 400).2.verified =
      (c10_e1.two_fa_code == some c || verify_code "S" c 400)) ∧
    (verify_2fa "S" c10_db 1 (generate_code "S" 400) 400).2.verified = true ∧
    (verify_2fa "S" c10_db 2 (generate_code "S" 400) 400).2.verified = true ∧
    (c10_e2.liveness_required = false →
      (find_event (verify_2fa "S" c10_db 2 (generate_code "S" 400) 400).1 2).map
        BreakGlassEvent.status = some "APPROVED") :=
  c10_shared_totp_secret "S" c10_db 1 2 c10_e1 c10_e2 400 (by decide) (by decide)
    (by decide) (by decide) (by decide) (by decide)
